import Mathlib

/-!
Verification of the module compile pipeline of the `esm` repository.

The definitions below are a shallow embedding of `src/module/_compile.js`
(dialect resolution, cache handling, wrapper synthesis, the error-masking
try/catch scaffolding, and the `Module.wrap` override protocol) and of the
`maskFunction` utility.  External collaborators (the transpiler, the host's
`_compile` primitive, source-map helpers, `captureStackTrace`) are passed in
as parameters; `maskStackTrace`, which lives outside the provided sources,
is modelled from the spec.  JavaScript mutation of shared module state is
made explicit by threading a `ProgState` value, and exceptions are `Except`
values paired with the state in which they were raised.
-/

/-- The `SOURCE_TYPE` constants consumed from `../constant/source-type.js`. -/
inductive SourceType where
  | MODULE
  | SCRIPT
  | UNAMBIGUOUS
deriving DecidableEq, Repr

/-- One cached compilation record, as produced by the transpiler and stored in
`pkg.cache.compile`: the transformed `code`, the detected `sourceType`, the
`changed` flag, the recorded `topLevelReturn` flag, and the named-export map
(`exportSpecifiers`, modelled by its key list, `none` when absent). -/
structure CachedCompilation where
  code : String
  sourceType : SourceType
  changed : Bool
  topLevelReturn : Bool
  exportSpecifiers : Option (List String)
deriving DecidableEq, Repr

/-- A slot of `pkg.cache.compile`: either the sentinel `true` (an entry exists
on disk but has not been loaded yet) or a loaded compilation record. -/
inductive CacheEntry where
  | pendingDisk
  | record (c : CachedCompilation)
deriving DecidableEq, Repr

/-- The package options consulted by `_compile.js`: `options.mode`,
`options.debug`, `options.await`, `options.cjs.vars` (flattened to `cjsVars`),
`options.sourceMap` (`none` models the undefined default) and
`options.warnings`. -/
structure PackageOptions where
  mode : String
  debug : Bool
  await : Bool
  cjsVars : Bool
  sourceMap : Option Bool
  warnings : Bool
deriving DecidableEq, Repr

/-- The fields of a module entry used by the wrapper builders: the generated
runtime-binding identifier and the module's filename. -/
structure Entry where
  runtimeName : String
  filename : String
deriving DecidableEq, Repr

/-- The possible values of the host's `Module.wrap` slot within this module:
its default `wrap`, or one of the two temporary overrides
`moduleWrapAsyncCJS` and `moduleWrapESM` (each of which, when invoked by the
host, resets `Module.wrap` back to the default). -/
inductive WrapFn where
  | wrapDefault
  | wrapAsyncCJS
  | wrapESM
deriving DecidableEq, Repr

/-- The mutable shared state threaded through the pipeline: the current
`Module.wrap` value, the `moduleState.stat` scratch slot (`none` models
`null`), and a counter of `Runtime.enable` invocations. -/
structure ProgState where
  moduleWrap : WrapFn
  stat : Option Unit
  runtimeEnables : Nat
deriving DecidableEq, Repr

/-- The abstract view of a thrown JavaScript value used by the error pipeline:
whether `isError` recognises it, whether `isStackTraceMasked` reports it as
already masked, a ghost count of `maskStackTrace` applications, and the
`sourceType` annotation carried by transform errors. -/
structure JSError where
  isErr : Bool
  masked : Bool
  maskCount : Nat
  sourceTypeAnn : Option SourceType
deriving DecidableEq, Repr

/-- The external collaborators consumed by the wrapper builders:
`isInspect()`, `getSourceMappingURL`, `createSourceMap`, `encodeURI` and
`shared.support.await`. -/
structure Externals where
  inspect : Bool
  gsmu : String → Bool
  csm : String → String → String
  encode : String → String
  supportAwait : Bool

/-- Dialect resolution performed at the top of `compile` (lines 43-58 of
`_compile.js`): starting from `hint = SCRIPT`, `sourceType = SCRIPT`, the
package mode "all" forces `MODULE`, mode "js" forces `UNAMBIGUOUS`, and a
".mjs" extension sets the hint to `MODULE` and upgrades a `SCRIPT` source
type to `MODULE`.  Returns the `(hint, sourceType)` pair handed to the
transpiler. -/
def compileDialect (mode ext : String) : SourceType × SourceType :=
  let hint := SourceType.SCRIPT
  let st := SourceType.SCRIPT
  let st :=
    if mode = "all" then SourceType.MODULE
    else if mode = "js" then SourceType.UNAMBIGUOUS
    else st
  if ext = ".mjs" then
    (SourceType.MODULE, if st = SourceType.SCRIPT then SourceType.MODULE else st)
  else
    (hint, st)

/-- The `useAsyncWrapper` policy (lines 306-327): true only when the package's
`await` option and the host's support both hold, and then the cached record
(the `pkg.cache.compile[entry.cacheName]` lookup result) is either not a
`MODULE` record or exposes no export-specifier keys. -/
def useAsyncWrapper (opts : PackageOptions) (supportAwait : Bool)
    (cached : Option CacheEntry) : Bool :=
  if opts.await && supportAwait then
    match cached with
    | some (CacheEntry.record c) =>
      if c.sourceType = SourceType.MODULE then
        match c.exportSpecifiers with
        | none => true
        | some ks => decide (ks.length = 0)
      else true
    | _ => true
  else false

/-- The parameter list of the function literal built by `tryCompileESM`
(lines 203-204): the runtime-binding name, `global`, and the `exports` and
`require` parameters only when `options.cjs.vars` is enabled. -/
def esmParams (runtimeName : String) (cjsVars : Bool) : String :=
  runtimeName ++ ",global" ++ (if cjsVars then ",exports,require" else "")

/-- The parameter list of the function literal built by `tryCompileCJS`
(line 173): the runtime-binding name, `global`, `exports` and `require`,
unconditionally. -/
def cjsParams (runtimeName : String) : String :=
  runtimeName ++ ",global,exports,require"

/-- Everything `tryCompileESM` places before the cached code (lines 199-205):
optional "return " prefix, the registration call, optional "async " marker,
the function head with its parameter list, and the strict-mode pragma that
opens the body. -/
def esmHead (runtimeName : String) (cjsVars useAsync tlr : Bool) : String :=
  (if tlr then "return " else "") ++
  "this.r((" ++
  (if useAsync then "async " else "") ++
  "function(" ++ esmParams runtimeName cjsVars ++ ")\x7b\"use strict\";"

/-- The full wrapper string built by `tryCompileESM` (lines 199-207). -/
def esmWrapperContent (runtimeName : String) (cjsVars useAsync : Bool)
    (c : CachedCompilation) : String :=
  esmHead runtimeName cjsVars useAsync c.topLevelReturn ++ c.code ++ "\n\x7d))"

/-- Everything `tryCompileCJS` places before the cached code when
`cached.changed` holds (lines 169-173): optional "return " prefix, the
registration call, optional "async " marker, and the function head; no
strict-mode pragma is injected. -/
def cjsHead (runtimeName : String) (useAsync tlr : Bool) : String :=
  (if tlr then "return " else "") ++
  "this.r((" ++
  (if useAsync then "async " else "") ++
  "function(" ++ cjsParams runtimeName ++ ")\x7b"

/-- The full wrapper string built by `tryCompileCJS` for changed content
(lines 168-175). -/
def cjsWrapperContent (runtimeName : String) (useAsync : Bool)
    (c : CachedCompilation) : String :=
  cjsHead runtimeName useAsync c.topLevelReturn ++ c.code ++ "\n\x7d))"

/-- The `maybeSourceMap` helper (lines 241-252): append an inline source-map
comment when the `sourceMap` option is not `false`, the option is enabled or
the process is inspected, and the content does not already carry a
source-mapping URL. -/
def maybeSourceMap (opts : PackageOptions) (ext : Externals)
    (filename content : String) : String :=
  if opts.sourceMap ≠ some false ∧
     (opts.sourceMap = some true ∨ ext.inspect = true) ∧
     ext.gsmu content = false then
    "//# sourceMappingURL=data:application/json;charset=utf-8," ++
      ext.encode (ext.csm filename content)
  else
    ""

/-- The `finally` block shared by both compile paths (lines 186-190 and
223-227): restore the host's default wrapper exactly when the given override
is still installed. -/
def restoreWrap (override : WrapFn) (s : ProgState) : ProgState :=
  if s.moduleWrap = override then { s with moduleWrap := WrapFn.wrapDefault }
  else s

/-- The body of `tryCompileCJS` (lines 161-191) as an explicit state
transformer.  `host` models `mod._compile(content, filename)`; it receives
the content string and the state in which it runs (within which the host may
invoke and thereby consume the current `Module.wrap`, and may perform nested
compile calls).  When the cached content changed, the wrapper string is built
and `Runtime.enable` is invoked; otherwise, under the async policy, the
`Module.wrap` slot is overridden with `moduleWrapAsyncCJS`.  The `finally`
block restores the default wrapper exactly when the override is still in
place. -/
def tryCompileCJS {ε α : Type} (opts : PackageOptions) (ext : Externals)
    (entry : Entry) (cached : CachedCompilation)
    (host : String → ProgState → Except ε α × ProgState)
    (s : ProgState) : Except ε α × ProgState :=
  let useAsync := useAsyncWrapper opts ext.supportAwait
    (some (CacheEntry.record cached))
  let content0 :=
    if cached.changed then cjsWrapperContent entry.runtimeName useAsync cached
    else cached.code
  let s1 :=
    if cached.changed then { s with runtimeEnables := s.runtimeEnables + 1 }
    else if useAsync then { s with moduleWrap := WrapFn.wrapAsyncCJS }
    else s
  let content := content0 ++ maybeSourceMap opts ext entry.filename content0
  let out := host content s1
  (out.1, restoreWrap WrapFn.wrapAsyncCJS out.2)

/-- The body of `tryCompileESM` (lines 193-228) as an explicit state
transformer.  The wrapper string always opens the body with the strict-mode
pragma; when `options.cjs.vars` is disabled the `Module.wrap` slot is
overridden with `moduleWrapESM`; `Runtime.enable` always runs; the `finally`
block restores the default wrapper exactly when the override is still in
place.  (The lazy `entry.url` fill of line 211 touches only the entry and is
not modelled.) -/
def tryCompileESM {ε α : Type} (opts : PackageOptions) (ext : Externals)
    (entry : Entry) (cached : CachedCompilation)
    (host : String → ProgState → Except ε α × ProgState)
    (s : ProgState) : Except ε α × ProgState :=
  let useAsync := useAsyncWrapper opts ext.supportAwait
    (some (CacheEntry.record cached))
  let content0 := esmWrapperContent entry.runtimeName opts.cjsVars useAsync cached
  let content := content0 ++ maybeSourceMap opts ext entry.filename content0
  let s1 :=
    if opts.cjsVars = false then { s with moduleWrap := WrapFn.wrapESM } else s
  let s2 := { s1 with runtimeEnables := s1.runtimeEnables + 1 }
  let out := host content s2
  (out.1, restoreWrap WrapFn.wrapESM out.2)

/-- Modelled from the spec: `maskStackTrace` lives in
`src/error/mask-stack-trace.js`, which is not among the provided sources.
Per the spec it rewrites the error's stack text and sets an internal
"masked" marker while preserving the error's identity; the embedding tracks
the marker and a ghost count of applications.  (The content, filename and
dialect arguments of the real function affect only the rewritten text.) -/
def maskStackTrace (e : JSError) : JSError :=
  { e with masked := true, maskCount := e.maskCount + 1 }

/-- The body of `tryCompileCached` (lines 119-159).  `depth` is
`moduleState.requireDepth`; `tryCompile` is the selected dialect-specific
compile step (it receives the state holding the installed `stat` slot).  In
debug mode the raw call is made, and the `stat` slot is torn down only after
a normal return; otherwise errors flow through the recognition/masked guard
and `maskStackTrace`, and the `finally` block tears the slot down on every
exit. -/
def tryCompileCached {α : Type} (debug : Bool) (depth : Nat)
    (tryCompile : ProgState → Except JSError α × ProgState)
    (s : ProgState) : Except JSError α × ProgState :=
  let s0 := if depth = 0 then { s with stat := some () } else s
  if debug then
    match tryCompile s0 with
    | (Except.ok v, s1) =>
      (Except.ok v, if depth = 0 then { s1 with stat := none } else s1)
    | (Except.error e, s1) => (Except.error e, s1)
  else
    match tryCompile s0 with
    | (Except.ok v, s1) =>
      (Except.ok v, if depth = 0 then { s1 with stat := none } else s1)
    | (Except.error e, s1) =>
      let e1 :=
        if e.isErr = false ∨ e.masked = true then e else maskStackTrace e
      (Except.error e1, if depth = 0 then { s1 with stat := none } else s1)

/-- The body of `tryCompileCode` (lines 262-281), abstracting
`Compiler.compile` by its outcome.  Outside debug mode, unrecognised or
already-masked errors are rethrown untouched; otherwise the `sourceType`
annotation is deleted, the stack is re-captured at the caller
(`capture` models `captureStackTrace`), and `maskStackTrace` is applied
once. -/
def tryCompileCode (debug : Bool) (capture : JSError → JSError)
    (compilerResult : Except JSError CachedCompilation) :
    Except JSError CachedCompilation :=
  if debug then compilerResult
  else
    match compilerResult with
    | Except.ok c => Except.ok c
    | Except.error e =>
      if e.isErr = false ∨ e.masked = true then Except.error e
      else
        Except.error (maskStackTrace (capture { e with sourceTypeAnn := none }))

/-- The body of `tryValidateESM` (lines 283-304), abstracting `validateESM`
by its outcome; same guard and masking as `tryCompileCode`, without the
annotation deletion. -/
def tryValidateESM (debug : Bool) (capture : JSError → JSError)
    (validateResult : Except JSError Unit) : Except JSError Unit :=
  if debug then validateResult
  else
    match validateResult with
    | Except.ok v => Except.ok v
    | Except.error e =>
      if e.isErr = false ∨ e.masked = true then Except.error e
      else Except.error (maskStackTrace (capture e))

/-- A package's two caches (`pkg.cache.compile` and `pkg.cache.map`),
modelled as total functions from cache names to optional entries. -/
structure PkgCache where
  compile : String → Option CacheEntry
  map : String → Option String

/-- Pointwise update of a cache slot; deleting a property stores `none`. -/
def mapSet {β : Type} (f : String → Option β) (k : String) (v : Option β) :
    String → Option β :=
  fun k' => if k' = k then v else f k'

/-- The cache phase of `compile` (lines 64-84): on the `true` sentinel the
on-disk record is loaded (`diskLoad` models `Compiler.from`, `diskCode` the
`readCachedCode` result); a failed load deletes both the compile and map
slots; an absent (or just-deleted) record triggers a fresh compilation
(`fresh` models the `tryCompileCode` result) which is stored before `compile`
proceeds.  Returns the record `compile` continues with, the updated caches,
and whether the transpiler was invoked. -/
def compileCacheStep (cache : PkgCache) (cacheName : String)
    (diskLoad : Option CachedCompilation) (diskCode : String)
    (fresh : CachedCompilation) : CachedCompilation × PkgCache × Bool :=
  match cache.compile cacheName with
  | some CacheEntry.pendingDisk =>
    (match diskLoad with
     | some c0 =>
       let c1 := { c0 with code := diskCode }
       (c1,
        { cache with
            compile := mapSet cache.compile cacheName (some (CacheEntry.record c1)) },
        false)
     | none =>
       let cache1 : PkgCache :=
         { compile := mapSet cache.compile cacheName none,
           map := mapSet cache.map cacheName none }
       (fresh,
        { cache1 with
            compile := mapSet cache1.compile cacheName (some (CacheEntry.record fresh)) },
        true))
  | some (CacheEntry.record c) => (c, cache, false)
  | none =>
    (fresh,
     { cache with
         compile := mapSet cache.compile cacheName (some (CacheEntry.record fresh)) },
     true)

/-- A JavaScript value as seen by `maskFunction`: a function (identified by
its object identity, a numeric id) or a non-callable value. -/
inductive JSVal where
  | fn (id : Nat)
  | obj (id : Nat)
deriving DecidableEq, Repr

/-- One record of the `shared.memoize.utilMaskFunction` cache:
`\x7b proxy, source, toString \x7d`, with functions denoted by their ids. -/
structure MaskRecord where
  proxy : Nat
  source : Nat
  toStr : Nat
deriving DecidableEq, Repr

/-- The mask cache together with a fresh-id counter used to allocate the two
proxies a `maskFunction` call creates.  The cache is keyed by object
identity; `set` prepends, so the most recent binding for a key wins. -/
structure MaskState where
  nextId : Nat
  cache : List (Nat × MaskRecord)
deriving DecidableEq, Repr

/-- Identity-keyed lookup in the memo table (`cache.get`). -/
def maskLookup (cache : List (Nat × MaskRecord)) (k : Nat) : Option MaskRecord :=
  match cache with
  | [] => none
  | (k', r) :: rest => if k = k' then some r else maskLookup rest k

/-- The `maskFunction` utility (lines 120-199 of the mask source file): a
no-op when `source` is not callable; otherwise memoized per `func` — a cache
hit returns the stored proxy.  On a miss it allocates the wrapping proxy and
the `toString` proxy, resolves `source` through the cache (an already-known
key contributes its record's `source`), stores the new record under both
`func` and the proxy, and returns the proxy.  (The `name`/prototype-chain
surgery of lines 166-186 mutates only the functions involved and is not
modelled.) -/
def maskFunction (func : Nat) (source : JSVal) (st : MaskState) :
    JSVal × MaskState :=
  match source with
  | JSVal.obj _ => (JSVal.fn func, st)
  | JSVal.fn sid =>
    match maskLookup st.cache func with
    | some r => (JSVal.fn r.proxy, st)
    | none =>
      let proxyId := st.nextId
      let toStrId := st.nextId + 1
      let resolvedSource :=
        match maskLookup st.cache sid with
        | some r => r.source
        | none => sid
      let rec0 : MaskRecord :=
        { proxy := proxyId, source := resolvedSource, toStr := toStrId }
      (JSVal.fn proxyId,
       { nextId := st.nextId + 2,
         cache := (proxyId, rec0) :: (func, rec0) :: st.cache })

/-- The host's `mod._compile` modelled as an echo: it hands back the content
string it was given as the call's result, leaving the state unchanged.  Used
to observe exactly what the pipeline passes to the host primitive. -/
def echoHost : String → ProgState → Except Unit String × ProgState :=
  fun t st => (Except.ok t, st)

/-- A character of either operand also occurs in an appended string. -/
theorem char_not_mem_append {c : Char} {s t : String} (hs : c ∉ s.data)
    (ht : c ∉ t.data) : c ∉ (s ++ t).data := by
  rw [String.data_append]
  intro h
  rcases List.mem_append.mp h with h | h
  exacts [hs h, ht h]

/-- A string cannot decompose around a segment containing a character the
string itself lacks. -/
theorem not_seg_of_not_mem {s p : String} {c : Char} (hp : c ∈ p.data)
    (hs : c ∉ s.data) : ¬ ∃ a b, s = a ++ p ++ b := by
  rintro ⟨a, b, rfl⟩
  apply hs
  rw [String.data_append, String.data_append]
  exact List.mem_append.mpr (Or.inl (List.mem_append.mpr (Or.inr hp)))

/-- A segment's character multiset is bounded by the whole string's. -/
theorem seg_count_le {s p : String} (c : Char) (h : ∃ a b, s = a ++ p ++ b) :
    p.data.count c ≤ s.data.count c := by
  obtain ⟨a, b, rfl⟩ := h
  rw [String.data_append, String.data_append, List.count_append, List.count_append]
  omega

/-- Strings with distinct leading characters stay distinct under appends. -/
theorem append_ne_of_head_ne {c d : Char} {l m : List Char} (hcd : c ≠ d)
    {s t : String} (hs : s.data = c :: l) (ht : t.data = d :: m)
    (u v : String) : s ++ u ≠ t ++ v := by
  intro h
  have h2 := congrArg String.data h
  rw [String.data_append, String.data_append, hs, ht] at h2
  exact hcd (List.head_eq_of_cons_eq h2)

/-- Claim C2: `useAsyncWrapper` returns true exactly when the package's
`await` option and the host's support both hold and, in addition, the cached
compilation either is not of the import/export dialect (`MODULE`) or has an
absent or empty `exportSpecifiers` map; in every other case it returns
false. -/
theorem useAsyncWrapper_spec (opts : PackageOptions) (supportAwait : Bool)
    (c : CachedCompilation) :
    useAsyncWrapper opts supportAwait (some (CacheEntry.record c)) = true ↔
      opts.await = true ∧ supportAwait = true ∧
        (c.sourceType ≠ SourceType.MODULE ∨
         c.exportSpecifiers = none ∨
         ∃ ks, c.exportSpecifiers = some ks ∧ ks.length = 0) := by
  unfold useAsyncWrapper
  cases hA : opts.await <;> cases hS : supportAwait <;>
    cases hT : c.sourceType <;> cases hE : c.exportSpecifiers <;>
      simp [hT, hE]

/-- Witness for C2: a MODULE record with an empty export-specifier map under
an await-enabled package resolves to true. -/
theorem useAsyncWrapper_spec_witness :
    useAsyncWrapper ⟨"js", false, true, false, none, false⟩ true
      (some (CacheEntry.record ⟨"", SourceType.MODULE, true, false, some []⟩))
      = true :=
  (useAsyncWrapper_spec ⟨"js", false, true, false, none, false⟩ true
      ⟨"", SourceType.MODULE, true, false, some []⟩).mpr
    ⟨rfl, rfl, Or.inr (Or.inr ⟨[], rfl, rfl⟩)⟩

/-- Claim C3: dialect resolution in `compile` is a pure function of the
package mode and the filename extension: mode "all" yields sourceType
`MODULE` regardless of hint, mode "js" yields `UNAMBIGUOUS`, otherwise the
result is `SCRIPT` unless the extension is ".mjs", which sets the hint to
`MODULE` and upgrades the `SCRIPT` sourceType to `MODULE`. -/
theorem compileDialect_spec (mode ext : String) :
    (mode = "all" → (compileDialect mode ext).2 = SourceType.MODULE) ∧
    (mode = "js" → (compileDialect mode ext).2 = SourceType.UNAMBIGUOUS) ∧
    (ext = ".mjs" → (compileDialect mode ext).1 = SourceType.MODULE) ∧
    (ext ≠ ".mjs" → (compileDialect mode ext).1 = SourceType.SCRIPT) ∧
    (mode ≠ "all" → mode ≠ "js" → ext ≠ ".mjs" →
      compileDialect mode ext = (SourceType.SCRIPT, SourceType.SCRIPT)) ∧
    (mode ≠ "all" → mode ≠ "js" → ext = ".mjs" →
      compileDialect mode ext = (SourceType.MODULE, SourceType.MODULE)) := by
  unfold compileDialect
  by_cases h1 : mode = "all" <;> by_cases h2 : mode = "js" <;>
    by_cases h3 : ext = ".mjs" <;> simp_all

/-- Witness for C3: evaluated at mode "all" with a ".js" extension and at a
default mode with a ".mjs" extension. -/
theorem compileDialect_spec_witness :
    (compileDialect "all" ".js").2 = SourceType.MODULE ∧
    compileDialect "" ".mjs" = (SourceType.MODULE, SourceType.MODULE) :=
  ⟨(compileDialect_spec "all" ".js").1 rfl,
   (compileDialect_spec "" ".mjs").2.2.2.2.2 (by decide) (by decide) rfl⟩

/-- Restoring an override never touches the `Runtime.enable` counter. -/
theorem restoreWrap_runtimeEnables (ov : WrapFn) (s : ProgState) :
    (restoreWrap ov s).runtimeEnables = s.runtimeEnables := by
  unfold restoreWrap
  split <;> rfl

/-- Restoring an override never touches the `stat` slot. -/
theorem restoreWrap_stat (ov : WrapFn) (s : ProgState) :
    (restoreWrap ov s).stat = s.stat := by
  unfold restoreWrap
  split <;> rfl

/-- If the wrapper slot holds either the default or the given override, the
restoration leaves the default installed. -/
theorem restoreWrap_default (ov : WrapFn) (s : ProgState)
    (h : s.moduleWrap = WrapFn.wrapDefault ∨ s.moduleWrap = ov) :
    (restoreWrap ov s).moduleWrap = WrapFn.wrapDefault := by
  unfold restoreWrap
  split
  · rfl
  · next h1 => exact h.resolve_right h1

/-- Claim C1: whether the host's compile primitive returns normally or
throws, after `tryCompileCJS` or `tryCompileESM` the `Module.wrap` slot is
exactly the value it held before the call began.  The host hypothesis states
that `mod._compile` either leaves the wrapper slot as it found it (for
example when it throws before wrapping) or leaves the default installed
(the overrides reset the slot when invoked, and nested compile calls leave
the default in place); the precondition states the system invariant that a
compile call starts with the default wrapper installed. -/
theorem wrap_restored_spec {ε α : Type} (opts : PackageOptions)
    (ext : Externals) (entry : Entry) (c : CachedCompilation)
    (host : String → ProgState → Except ε α × ProgState)
    (hhost : ∀ t st, ((host t st).2).moduleWrap = st.moduleWrap ∨
                     ((host t st).2).moduleWrap = WrapFn.wrapDefault)
    (s : ProgState) (h0 : s.moduleWrap = WrapFn.wrapDefault) :
    ((tryCompileCJS opts ext entry c host s).2).moduleWrap = s.moduleWrap ∧
    ((tryCompileESM opts ext entry c host s).2).moduleWrap = s.moduleWrap := by
  rw [h0]
  constructor
  · unfold tryCompileCJS
    apply restoreWrap_default
    rcases hhost ((if c.changed then cjsWrapperContent entry.runtimeName
        (useAsyncWrapper opts ext.supportAwait (some (CacheEntry.record c))) c
      else c.code) ++ maybeSourceMap opts ext entry.filename
        (if c.changed then cjsWrapperContent entry.runtimeName
          (useAsyncWrapper opts ext.supportAwait (some (CacheEntry.record c))) c
        else c.code))
      (if c.changed then { s with runtimeEnables := s.runtimeEnables + 1 }
       else if useAsyncWrapper opts ext.supportAwait
           (some (CacheEntry.record c)) then
         { s with moduleWrap := WrapFn.wrapAsyncCJS }
       else s) with h | h
    · rw [h]
      split
      · exact Or.inl h0
      · split
        · exact Or.inr rfl
        · exact Or.inl h0
    · exact Or.inl h
  · unfold tryCompileESM
    apply restoreWrap_default
    rcases hhost (esmWrapperContent entry.runtimeName opts.cjsVars
        (useAsyncWrapper opts ext.supportAwait (some (CacheEntry.record c))) c ++
      maybeSourceMap opts ext entry.filename
        (esmWrapperContent entry.runtimeName opts.cjsVars
          (useAsyncWrapper opts ext.supportAwait (some (CacheEntry.record c))) c))
      { (if opts.cjsVars = false then { s with moduleWrap := WrapFn.wrapESM }
         else s) with
        runtimeEnables :=
          (if opts.cjsVars = false then { s with moduleWrap := WrapFn.wrapESM }
           else s).runtimeEnables + 1 } with h | h
    · rw [h]
      split
      · exact Or.inr rfl
      · exact Or.inl h0
    · exact Or.inl h

/-- Witness for C1: a wrapper-preserving host on a state holding the default
wrapper; both compile paths leave the wrapper unchanged. -/
theorem wrap_restored_spec_witness :
    ((tryCompileCJS ⟨"js", false, true, false, none, false⟩
        ⟨false, fun _ => false, fun _ _ => "", fun t => t, true⟩
        ⟨"u", "f.js"⟩ ⟨"x", SourceType.SCRIPT, false, false, none⟩
        (fun _ st => ((Except.ok 0 : Except Unit Nat), st))
        ⟨WrapFn.wrapDefault, none, 0⟩).2).moduleWrap = WrapFn.wrapDefault ∧
    ((tryCompileESM ⟨"js", false, true, false, none, false⟩
        ⟨false, fun _ => false, fun _ _ => "", fun t => t, true⟩
        ⟨"u", "f.js"⟩ ⟨"x", SourceType.SCRIPT, false, false, none⟩
        (fun _ st => ((Except.ok 0 : Except Unit Nat), st))
        ⟨WrapFn.wrapDefault, none, 0⟩).2).moduleWrap = WrapFn.wrapDefault :=
  wrap_restored_spec ⟨"js", false, true, false, none, false⟩
    ⟨false, fun _ => false, fun _ _ => "", fun t => t, true⟩
    ⟨"u", "f.js"⟩ ⟨"x", SourceType.SCRIPT, false, false, none⟩
    (fun _ st => ((Except.ok 0 : Except Unit Nat), st))
    (fun _ _ => Or.inl rfl) ⟨WrapFn.wrapDefault, none, 0⟩ rfl

/-- The content string `tryCompileCJS` assembles before the source-map
append: the synthesized wrapper when the cached content changed, the cached
code verbatim otherwise. -/
def cjsContent0 (opts : PackageOptions) (ext : Externals) (entry : Entry)
    (c : CachedCompilation) : String :=
  if c.changed then
    cjsWrapperContent entry.runtimeName
      (useAsyncWrapper opts ext.supportAwait (some (CacheEntry.record c))) c
  else c.code

/-- The content string `tryCompileESM` assembles before the source-map
append. -/
def esmContent0 (opts : PackageOptions) (ext : Externals) (entry : Entry)
    (c : CachedCompilation) : String :=
  esmWrapperContent entry.runtimeName opts.cjsVars
    (useAsyncWrapper opts ext.supportAwait (some (CacheEntry.record c))) c

/-- Under the echo host, `tryCompileCJS` returns exactly the string it hands
to `mod._compile`. -/
theorem tryCompileCJS_echo (opts : PackageOptions) (ext : Externals)
    (entry : Entry) (c : CachedCompilation) (s : ProgState) :
    (tryCompileCJS opts ext entry c echoHost s).1 =
      Except.ok (cjsContent0 opts ext entry c ++
        maybeSourceMap opts ext entry.filename (cjsContent0 opts ext entry c)) :=
  rfl

/-- Under the echo host, `tryCompileESM` returns exactly the string it hands
to `mod._compile`. -/
theorem tryCompileESM_echo (opts : PackageOptions) (ext : Externals)
    (entry : Entry) (c : CachedCompilation) (s : ProgState) :
    (tryCompileESM opts ext entry c echoHost s).1 =
      Except.ok (esmContent0 opts ext entry c ++
        maybeSourceMap opts ext entry.filename (esmContent0 opts ext entry c)) :=
  rfl

/-- Claim C10: for a script-dialect entry whose cached compilation has
`changed = false`, `tryCompileCJS` hands the cached code to the host
primitive verbatim except for a possibly appended source-map comment (no
registration wrapper, no parameters, no "return " prefix), and does not
install a fresh runtime-binding object (`Runtime.enable` is not invoked). -/
theorem cjs_unchanged_verbatim_spec (opts : PackageOptions) (ext : Externals)
    (entry : Entry) (c : CachedCompilation) (s : ProgState)
    (hch : c.changed = false) :
    (tryCompileCJS opts ext entry c echoHost s).1 =
      Except.ok (c.code ++ maybeSourceMap opts ext entry.filename c.code) ∧
    (maybeSourceMap opts ext entry.filename c.code = "" ∨
      ∃ t, maybeSourceMap opts ext entry.filename c.code =
        "//# sourceMappingURL=data:application/json;charset=utf-8," ++ t) ∧
    ((tryCompileCJS opts ext entry c echoHost s).2).runtimeEnables =
      s.runtimeEnables := by
  refine ⟨?_, ?_, ?_⟩
  · rw [tryCompileCJS_echo]
    simp [cjsContent0, hch]
  · unfold maybeSourceMap
    split
    · exact Or.inr ⟨_, rfl⟩
    · exact Or.inl rfl
  · show (restoreWrap WrapFn.wrapAsyncCJS _).runtimeEnables = _
    rw [restoreWrap_runtimeEnables]
    show ProgState.runtimeEnables
      (if c.changed then { s with runtimeEnables := s.runtimeEnables + 1 }
       else if useAsyncWrapper opts ext.supportAwait
           (some (CacheEntry.record c)) then
         { s with moduleWrap := WrapFn.wrapAsyncCJS }
       else s) = s.runtimeEnables
    rw [hch]
    split
    · next h => exact absurd h (by decide)
    · split <;> rfl

/-- Witness for C10: an unchanged script-dialect record passes its code
straight through. -/
theorem cjs_unchanged_verbatim_spec_witness :
    (tryCompileCJS ⟨"js", false, false, false, some false, false⟩
        ⟨false, fun _ => false, fun _ _ => "", fun t => t, false⟩
        ⟨"u", "f.js"⟩ ⟨"var a = 1", SourceType.SCRIPT, false, true, none⟩
        echoHost ⟨WrapFn.wrapDefault, none, 0⟩).1 =
      Except.ok ("var a = 1" ++
        maybeSourceMap ⟨"js", false, false, false, some false, false⟩
          ⟨false, fun _ => false, fun _ _ => "", fun t => t, false⟩
          "f.js" "var a = 1") :=
  (cjs_unchanged_verbatim_spec ⟨"js", false, false, false, some false, false⟩
    ⟨false, fun _ => false, fun _ _ => "", fun t => t, false⟩
    ⟨"u", "f.js"⟩ ⟨"var a = 1", SourceType.SCRIPT, false, true, none⟩
    ⟨WrapFn.wrapDefault, none, 0⟩ rfl).1

/-- Claim C5: when the cached compilation records `topLevelReturn`, the
content handed to the host primitive begins with "return " followed by the
registration call "this.r((", for both wrapper builders (for the script
dialect this is the changed-content path, the one that builds a wrapper);
when `topLevelReturn` is false no such prefix is added. -/
theorem topLevelReturn_return_spec (opts : PackageOptions) (ext : Externals)
    (entry : Entry) (c : CachedCompilation) (s : ProgState) :
    (c.topLevelReturn = true → c.changed = true →
      ∃ rest, (tryCompileCJS opts ext entry c echoHost s).1 =
        Except.ok ("return " ++ ("this.r((" ++ rest))) ∧
    (c.topLevelReturn = true →
      ∃ rest, (tryCompileESM opts ext entry c echoHost s).1 =
        Except.ok ("return " ++ ("this.r((" ++ rest))) ∧
    (c.topLevelReturn = false → c.changed = true →
      (∃ rest, (tryCompileCJS opts ext entry c echoHost s).1 =
        Except.ok ("this.r((" ++ rest)) ∧
      (∀ q, (tryCompileCJS opts ext entry c echoHost s).1 ≠
        Except.ok ("return " ++ q))) ∧
    (c.topLevelReturn = false →
      (∃ rest, (tryCompileESM opts ext entry c echoHost s).1 =
        Except.ok ("this.r((" ++ rest)) ∧
      (∀ q, (tryCompileESM opts ext entry c echoHost s).1 ≠
        Except.ok ("return " ++ q))) := by
  have hne : ∀ rest q : String, "this.r((" ++ rest ≠ "return " ++ q :=
    fun rest q => @append_ne_of_head_ne 't' 'r' "his.r((".data "eturn ".data
      (by decide) "this.r((" "return " (by decide) (by decide) rest q
  have hmerge : ∀ X : String,
      "return this.r((" ++ X = "return " ++ ("this.r((" ++ X) := by
    intro X
    rw [← String.append_assoc]
    rw [show ("return " ++ "this.r((" : String) = "return this.r((" from by decide]
  refine ⟨?_, ?_, ?_, ?_⟩
  · intro h1 h2
    rw [tryCompileCJS_echo]
    simp [cjsContent0, h2, cjsWrapperContent, cjsHead, h1, cjsParams,
      String.append_assoc]
    exact ⟨_, hmerge _⟩
  · intro h1
    rw [tryCompileESM_echo]
    simp [esmContent0, esmWrapperContent, esmHead, h1, esmParams,
      String.append_assoc]
    exact ⟨_, hmerge _⟩
  · intro h1 h2
    constructor
    · rw [tryCompileCJS_echo]
      simp [cjsContent0, h2, cjsWrapperContent, cjsHead, h1, cjsParams,
        String.append_assoc]
    · intro q hq
      rw [tryCompileCJS_echo] at hq
      simp [cjsContent0, h2, cjsWrapperContent, cjsHead, h1, cjsParams,
        String.append_assoc] at hq
      exact hne _ _ hq
  · intro h1
    constructor
    · rw [tryCompileESM_echo]
      simp [esmContent0, esmWrapperContent, esmHead, h1, esmParams,
        String.append_assoc]
    · intro q hq
      rw [tryCompileESM_echo] at hq
      simp [esmContent0, esmWrapperContent, esmHead, h1, esmParams,
        String.append_assoc] at hq
      exact hne _ _ hq

/-- Witness for C5: a changed script-dialect record with a recorded
top-level return yields content prefixed with the return and registration
call. -/
theorem topLevelReturn_return_spec_witness :
    ∃ rest, (tryCompileCJS ⟨"js", false, false, false, some false, false⟩
        ⟨false, fun _ => false, fun _ _ => "", fun t => t, false⟩
        ⟨"u", "f.js"⟩ ⟨"code", SourceType.SCRIPT, true, true, none⟩
        echoHost ⟨WrapFn.wrapDefault, none, 0⟩).1 =
      Except.ok ("return " ++ ("this.r((" ++ rest)) :=
  (topLevelReturn_return_spec ⟨"js", false, false, false, some false, false⟩
    ⟨false, fun _ => false, fun _ _ => "", fun t => t, false⟩
    ⟨"u", "f.js"⟩ ⟨"code", SourceType.SCRIPT, true, true, none⟩
    ⟨WrapFn.wrapDefault, none, 0⟩).1 rfl rfl

/-- The script-dialect head never contains a double-quote character when the
runtime name has none. -/
theorem quote_not_mem_cjsHead (r : String) (ua tlr : Bool)
    (hr : '"' ∉ r.data) : '"' ∉ (cjsHead r ua tlr).data := by
  unfold cjsHead cjsParams
  exact char_not_mem_append (char_not_mem_append (char_not_mem_append
    (char_not_mem_append (char_not_mem_append
      (by cases tlr <;> simp) (by decide))
      (by cases ua <;> simp))
    (by decide)) (char_not_mem_append hr (by decide))) (by decide)

/-- Claim C4: the import/export-dialect wrapper opens its function body with
the strict-mode pragma, and its parameter list carries the `exports` and
`require` parameters exactly when `options.cjs.vars` is enabled; the
script-dialect wrapper always carries them and injects no strict-mode
pragma anywhere in its scaffolding.  The hypotheses state that the runtime
name is an identifier (it contains neither a double quote nor a comma). -/
theorem wrapper_strict_pragma_spec (r : String) (ua tlr cjsVars : Bool)
    (c : CachedCompilation) (hq : '"' ∉ r.data) (hcm : ',' ∉ r.data) :
    (∃ a, esmWrapperContent r cjsVars ua c =
        a ++ ")\x7b\"use strict\";" ++ (c.code ++ "\n\x7d))")) ∧
    (esmParams r true = (r ++ ",global") ++ ",exports,require") ∧
    (¬ ∃ a b, esmParams r false = a ++ ",exports,require" ++ b) ∧
    (∃ a, cjsParams r = a ++ ",exports,require") ∧
    (¬ ∃ a b, cjsHead r ua tlr = a ++ "\"use strict\"" ++ b) ∧
    (¬ ∃ a b, ("\n\x7d))" : String) = a ++ "\"use strict\"" ++ b) ∧
    (cjsWrapperContent r ua c =
      cjsHead r ua c.topLevelReturn ++ c.code ++ "\n\x7d))") := by
  refine ⟨?_, rfl, ?_, ?_, ?_, ?_, rfl⟩
  · refine ⟨(if c.topLevelReturn then "return " else "") ++ "this.r((" ++
      (if ua then "async " else "") ++ "function(" ++ esmParams r cjsVars, ?_⟩
    show esmHead r cjsVars ua c.topLevelReturn ++ c.code ++ "\n\x7d))" = _
    rw [String.append_assoc]
    rfl
  · have hr0 : r.data.count ',' = 0 := List.count_eq_zero.mpr hcm
    have e1 : (esmParams r false).data.count ',' = 1 := by
      show ((r ++ ",global") ++ "").data.count ',' = 1
      rw [String.data_append, String.data_append, List.count_append,
        List.count_append, hr0]
      decide
    intro hseg
    have hle := seg_count_le ',' hseg
    rw [e1] at hle
    rw [show ((",exports,require" : String).data.count ',') = 2 from by decide]
      at hle
    exact absurd hle (by decide)
  · refine ⟨r ++ ",global", ?_⟩
    show r ++ ",global,exports,require" = _
    rw [show (",global,exports,require" : String) =
      ",global" ++ ",exports,require" from by decide, ← String.append_assoc]
  · exact not_seg_of_not_mem (by decide) (quote_not_mem_cjsHead r ua tlr hq)
  · exact not_seg_of_not_mem (c := '"') (by decide) (by decide)

/-- Witness for C4: evaluated at the identifier runtime name "u". -/
theorem wrapper_strict_pragma_spec_witness :
    ('"' ∉ ("u" : String).data) ∧
    ¬ ∃ a b, cjsHead "u" false false = a ++ "\"use strict\"" ++ b :=
  ⟨by decide, (wrapper_strict_pragma_spec "u" false false false
    ⟨"x", SourceType.SCRIPT, true, false, none⟩
    (by decide) (by decide)).2.2.2.2.1⟩

/-- Claim C6: with the `true` sentinel stored for a cache name, a failed
on-disk load deletes both the compile and map slots and behaves exactly as
if the entry were absent — a fresh compilation is performed and stored —
while a successful load stores the loaded record with its `code` field
filled and performs no recompilation. -/
theorem cache_pendingDisk_spec (cache : PkgCache) (cacheName : String)
    (diskCode : String) (fresh : CachedCompilation)
    (h : cache.compile cacheName = some CacheEntry.pendingDisk) :
    (compileCacheStep cache cacheName none diskCode fresh =
      compileCacheStep
        ⟨mapSet cache.compile cacheName none, mapSet cache.map cacheName none⟩
        cacheName none diskCode fresh) ∧
    ((compileCacheStep cache cacheName none diskCode fresh).1 = fresh) ∧
    ((compileCacheStep cache cacheName none diskCode fresh).2.1.compile
        cacheName = some (CacheEntry.record fresh)) ∧
    ((compileCacheStep cache cacheName none diskCode fresh).2.1.map
        cacheName = none) ∧
    ((compileCacheStep cache cacheName none diskCode fresh).2.2 = true) ∧
    (∀ c0 : CachedCompilation,
      (compileCacheStep cache cacheName (some c0) diskCode fresh).1 =
        { c0 with code := diskCode } ∧
      (compileCacheStep cache cacheName (some c0) diskCode fresh).2.1.compile
        cacheName = some (CacheEntry.record { c0 with code := diskCode }) ∧
      (compileCacheStep cache cacheName (some c0) diskCode fresh).2.1.map =
        cache.map ∧
      (compileCacheStep cache cacheName (some c0) diskCode fresh).2.2 =
        false) := by
  unfold compileCacheStep
  rw [h]
  refine ⟨?_, rfl, by simp [mapSet], by simp [mapSet], rfl, ?_⟩
  · simp [mapSet]
  · intro c0
    exact ⟨rfl, by simp [mapSet], rfl, rfl⟩

/-- Witness for C6: a one-slot cache holding the sentinel falls back to the
fresh compilation. -/
theorem cache_pendingDisk_spec_witness :
    ((fun k => if k = "n" then some CacheEntry.pendingDisk else none)
        ("n") = some CacheEntry.pendingDisk) ∧
    (compileCacheStep
        ⟨fun k => if k = "n" then some CacheEntry.pendingDisk else none,
         fun k => if k = "n" then some "m" else none⟩
        "n" none "dc" ⟨"f", SourceType.SCRIPT, true, false, none⟩).1 =
      ⟨"f", SourceType.SCRIPT, true, false, none⟩ :=
  ⟨by decide, (cache_pendingDisk_spec
    ⟨fun k => if k = "n" then some CacheEntry.pendingDisk else none,
     fun k => if k = "n" then some "m" else none⟩
    "n" "dc" ⟨"f", SourceType.SCRIPT, true, false, none⟩ (by decide)).2.1⟩

/-- Claim C7: outside debug mode, each of the three guarded sites
(`tryCompileCode`, `tryValidateESM`, the execution path of
`tryCompileCached`) rethrows unrecognised or already-masked errors
completely unchanged, and otherwise propagates the error through
`maskStackTrace` exactly once.  The hypothesis states that the external
stack-capture helper does not change the mask count. -/
theorem mask_once_spec (capture : JSError → JSError)
    (hcap : ∀ x, (capture x).maskCount = x.maskCount)
    (e : JSError) (depth : Nat) (s : ProgState) :
    (e.isErr = false ∨ e.masked = true →
      tryCompileCode false capture (Except.error e) = Except.error e ∧
      tryValidateESM false capture (Except.error e) = Except.error e ∧
      (tryCompileCached false depth
        (fun st => ((Except.error e : Except JSError Unit), st)) s).1 =
        Except.error e) ∧
    (e.isErr = true → e.masked = false →
      (∃ e1, tryCompileCode false capture (Except.error e) = Except.error e1 ∧
        e1.masked = true ∧ e1.maskCount = e.maskCount + 1) ∧
      (∃ e2, tryValidateESM false capture (Except.error e) = Except.error e2 ∧
        e2.masked = true ∧ e2.maskCount = e.maskCount + 1) ∧
      (∃ e3, (tryCompileCached false depth
          (fun st => ((Except.error e : Except JSError Unit), st)) s).1 =
        Except.error e3 ∧ e3.masked = true ∧
        e3.maskCount = e.maskCount + 1)) := by
  constructor
  · intro hg
    have hg2 : (e.isErr = false ∨ e.masked = true) = True := eq_true hg
    refine ⟨?_, ?_, ?_⟩
    · unfold tryCompileCode
      simp [hg2]
    · unfold tryValidateESM
      simp [hg2]
    · unfold tryCompileCached
      simp [hg2]
  · intro h1 h2
    have hg2 : ¬ (e.isErr = false ∨ e.masked = true) := by
      simp [h1, h2]
    refine ⟨⟨maskStackTrace (capture { e with sourceTypeAnn := none }), ?_, rfl, ?_⟩,
            ⟨maskStackTrace (capture e), ?_, rfl, ?_⟩,
            ⟨maskStackTrace e, ?_, rfl, rfl⟩⟩
    · unfold tryCompileCode
      simp [hg2]
    · show (capture { e with sourceTypeAnn := none }).maskCount + 1 =
        e.maskCount + 1
      rw [hcap]
    · unfold tryValidateESM
      simp [hg2]
    · show (capture e).maskCount + 1 = e.maskCount + 1
      rw [hcap]
    · unfold tryCompileCached
      simp [hg2]

/-- Witness for C7: an already-masked error passes through the transform
site unchanged. -/
theorem mask_once_spec_witness :
    ((⟨true, true, 1, none⟩ : JSError).isErr = false ∨
      (⟨true, true, 1, none⟩ : JSError).masked = true) ∧
    tryCompileCode false (fun x => x)
        (Except.error ⟨true, true, 1, none⟩) =
      Except.error ⟨true, true, 1, none⟩ :=
  ⟨Or.inr rfl,
   ((mask_once_spec (fun x => x) (fun _ => rfl) ⟨true, true, 1, none⟩ 0
      ⟨WrapFn.wrapDefault, none, 0⟩).1 (Or.inr rfl)).1⟩

/-- Counterexample to claim C8 as stated: at require depth zero with the
package's debug option enabled, an inner compile step that throws leaves the
installed `moduleState.stat` slot in place — the debug branch of
`tryCompileCached` has no `finally`-style teardown, so the slot is not reset
to null when the outermost call completes by throwing. -/
theorem stat_reset_counterexample :
    ((tryCompileCached true 0
        (fun st => ((Except.error ⟨true, false, 0, none⟩ : Except JSError Unit), st))
        ⟨WrapFn.wrapDefault, none, 0⟩).2).stat ≠ none := by
  decide

/-- Claim C8 as amended: the `stat` slot is installed exactly at require
depth zero (nonzero-depth calls leave it untouched and hand the inner
compile the incoming slot), it is reset to null on every completion of an
outermost non-debug call — normal return or throw — and on a normal return
of an outermost debug call; a throwing outermost debug call is the one path
that leaves the slot installed.  The hypothesis states that the inner
compile step itself leaves the slot as it finds it (inner loads run at
nonzero depth). -/
theorem stat_lifecycle_amended {α : Type} (dbg : Bool) (depth : Nat)
    (tc : ProgState → Except JSError α × ProgState)
    (htc : ∀ st, ((tc st).2).stat = st.stat) (s : ProgState) :
    (depth ≠ 0 → ((tryCompileCached dbg depth tc s).2).stat = s.stat) ∧
    ((tryCompileCached dbg 0
        (fun st => ((Except.ok st.stat : Except JSError (Option Unit)), st))
        s).1 = Except.ok (some ())) ∧
    (depth ≠ 0 → (tryCompileCached dbg depth
        (fun st => ((Except.ok st.stat : Except JSError (Option Unit)), st))
        s).1 = Except.ok s.stat) ∧
    (((tryCompileCached false 0 tc s).2).stat = none) ∧
    (∀ v s1, tc { s with stat := some () } = (Except.ok v, s1) →
      ((tryCompileCached true 0 tc s).2).stat = none) := by
  refine ⟨?_, ?_, ?_, ?_, ?_⟩
  · intro hd
    unfold tryCompileCached
    rcases h : tc s with ⟨r, s1⟩
    have hs1 : s1.stat = s.stat := by
      have := htc s
      rw [h] at this
      exact this
    cases dbg <;> simp [hd] <;> rw [h] <;> cases r <;> simp [hd, hs1]
  · unfold tryCompileCached
    cases dbg <;> simp
  · intro hd
    unfold tryCompileCached
    cases dbg <;> simp [hd]
  · unfold tryCompileCached
    rcases h : tc { s with stat := some () } with ⟨r, s1⟩
    simp
    rw [h]
    cases r <;> simp
  · intro v s1 h
    unfold tryCompileCached
    simp
    rw [h]

/-- Witness for the amended C8: a stat-preserving inner step at depth zero
in non-debug mode ends with the slot reset. -/
theorem stat_lifecycle_amended_witness :
    ((tryCompileCached false 0
        (fun st => ((Except.ok () : Except JSError Unit), st))
        ⟨WrapFn.wrapDefault, some (), 5⟩).2).stat = none :=
  (stat_lifecycle_amended false 0
    (fun st => ((Except.ok () : Except JSError Unit), st))
    (fun _ => rfl) ⟨WrapFn.wrapDefault, some (), 5⟩).2.2.2.1

/-- Claim C9: `maskFunction` returns `func` itself unchanged when `source`
is not callable; otherwise the result is memoized per `func` — a state whose
cache already holds a record for `func` yields that record's proxy with no
state change (so an immediately repeated call, with any callable source,
returns the identical cached proxy), and a creating call stores its record
under both `func` and the returned proxy, so lookup from either key yields
the same record. -/
theorem maskFunction_spec (func sid sid2 oid : Nat) (st : MaskState) :
    (maskFunction func (JSVal.obj oid) st = (JSVal.fn func, st)) ∧
    (∀ r, maskLookup st.cache func = some r →
      maskFunction func (JSVal.fn sid) st = (JSVal.fn r.proxy, st)) ∧
    (maskFunction func (JSVal.fn sid2)
        (maskFunction func (JSVal.fn sid) st).2 =
      ((maskFunction func (JSVal.fn sid) st).1,
       (maskFunction func (JSVal.fn sid) st).2)) ∧
    (maskLookup st.cache func = none →
      ∃ r, (maskFunction func (JSVal.fn sid) st).1 = JSVal.fn r.proxy ∧
        maskLookup ((maskFunction func (JSVal.fn sid) st).2).cache func =
          some r ∧
        maskLookup ((maskFunction func (JSVal.fn sid) st).2).cache r.proxy =
          some r) := by
  refine ⟨rfl, ?_, ?_, ?_⟩
  · intro r hr
    unfold maskFunction
    rw [hr]
  · rcases h : maskLookup st.cache func with _ | r
    · have hcall : maskFunction func (JSVal.fn sid) st =
          (JSVal.fn st.nextId,
           ⟨st.nextId + 2,
            (st.nextId, ⟨st.nextId,
              (match maskLookup st.cache sid with
               | some r2 => r2.source
               | none => sid), st.nextId + 1⟩) ::
            (func, ⟨st.nextId,
              (match maskLookup st.cache sid with
               | some r2 => r2.source
               | none => sid), st.nextId + 1⟩) :: st.cache⟩) := by
        unfold maskFunction
        rw [h]
      rw [hcall]
      unfold maskFunction
      by_cases hfp : func = st.nextId
      · simp [maskLookup, hfp]
      · simp [maskLookup, hfp]
    · have hcall : maskFunction func (JSVal.fn sid) st =
          (JSVal.fn r.proxy, st) := by
        unfold maskFunction
        rw [h]
      rw [hcall]
      unfold maskFunction
      rw [h]
  · intro h
    have hcall : maskFunction func (JSVal.fn sid) st =
        (JSVal.fn st.nextId,
         ⟨st.nextId + 2,
          (st.nextId, ⟨st.nextId,
            (match maskLookup st.cache sid with
             | some r2 => r2.source
             | none => sid), st.nextId + 1⟩) ::
          (func, ⟨st.nextId,
            (match maskLookup st.cache sid with
             | some r2 => r2.source
             | none => sid), st.nextId + 1⟩) :: st.cache⟩) := by
      unfold maskFunction
      rw [h]
    rw [hcall]
    refine ⟨⟨st.nextId,
      (match maskLookup st.cache sid with
       | some r2 => r2.source
       | none => sid), st.nextId + 1⟩, rfl, ?_, ?_⟩
    · by_cases hfp : func = st.nextId
      · simp [maskLookup, hfp]
      · simp [maskLookup, hfp]
    · simp [maskLookup]

/-- Witness for C9: a creating call on an empty cache stores its record
under both keys. -/
theorem maskFunction_spec_witness :
    maskLookup (MaskState.mk 7 []).cache 0 = none ∧
    ∃ r, (maskFunction 0 (JSVal.fn 1) (MaskState.mk 7 [])).1 =
        JSVal.fn r.proxy ∧
      maskLookup ((maskFunction 0 (JSVal.fn 1) (MaskState.mk 7 [])).2).cache
        0 = some r ∧
      maskLookup ((maskFunction 0 (JSVal.fn 1) (MaskState.mk 7 [])).2).cache
        r.proxy = some r :=
  ⟨rfl, (maskFunction_spec 0 1 2 3 (MaskState.mk 7 [])).2.2.2 rfl⟩
